import Mathlib

/-!
Shallow embedding of the Performance Measurement & Scoring Engine of the
react-page-performance-tool repository.

JavaScript numbers are modelled as rationals (ℚ); nullable values as `Option`;
JavaScript objects as structures. Each definition mirrors one function of the
source: the score calculator, web-vital status, issue detector and report
processor (reportProcessor service), the timestamp normalization and metric
calculation of the manual-instrumentation analyzer, the URL matching of the
Lighthouse report processor, and the authentication injection and error
classification of the performance analyzer service.
-/

namespace PerfTool

/-- JavaScript `Math.round`: round half toward positive infinity. -/
def jsRound (q : ℚ) : ℤ := ⌊q + 1/2⌋

/-- Truthiness of a nullable JavaScript number: `null`, `undefined` and `0` are falsy. -/
def qTruthy : Option ℚ → Bool
  | Option.none => false
  | Option.some v => v != 0

/-- Truthiness of a nullable JavaScript string: `null`, `undefined` and `""` are falsy. -/
def strTruthy : Option String → Bool
  | Option.none => false
  | Option.some s => s != ""

/-- JavaScript `a || b` on nullable strings. -/
def strOr (a b : Option String) : Option String := if strTruthy a then a else b

/-! ## Score calculator (reportProcessor, `calculatePerformanceScore`)

`metrics.fcp` and `webVitals.lcp` reach the calculator already converted to
seconds by `processReport`; `tti` is in seconds, `fid` and `tbt` in
milliseconds, `cls` is unitless. -/

/-- The `metrics` object handed to the score calculator. -/
structure Metrics where
  fcp : Option ℚ
  tti : Option ℚ
  speedIndex : Option ℚ
  tbt : Option ℚ
deriving DecidableEq

/-- The `webVitals` object handed to the score calculator. -/
structure WebVitals where
  lcp : Option ℚ
  fid : Option ℚ
  cls : Option ℚ
deriving DecidableEq

/-- One element of the `deductions` array built by `calculatePerformanceScore`. -/
structure DeductionEntry where
  metric : String
  value : Option ℚ
  deduction : ℕ
  status : String
deriving DecidableEq

/-- LCP branch of `calculatePerformanceScore`: good ≤ 2.5 s, needs-improvement
≤ 4.0 s, poor above, missing −15. -/
def lcpEntry : Option ℚ → DeductionEntry
  | Option.some v =>
    if v ≤ 2.5 then ⟨"LCP", Option.some v, 0, "good"⟩
    else if v ≤ 4.0 then ⟨"LCP", Option.some v, 10, "needs-improvement"⟩
    else ⟨"LCP", Option.some v, 25, "poor"⟩
  | Option.none => ⟨"LCP", Option.none, 15, "missing"⟩

/-- FID branch: good ≤ 100 ms, needs-improvement ≤ 300 ms, poor above; a null
FID is acceptable (requires user interaction) and deducts nothing. -/
def fidEntry : Option ℚ → DeductionEntry
  | Option.some v =>
    if v ≤ 100 then ⟨"FID", Option.some v, 0, "good"⟩
    else if v ≤ 300 then ⟨"FID", Option.some v, 10, "needs-improvement"⟩
    else ⟨"FID", Option.some v, 25, "poor"⟩
  | Option.none => ⟨"FID", Option.none, 0, "not-applicable"⟩

/-- CLS branch: good ≤ 0.1, needs-improvement ≤ 0.25, poor above, missing −15. -/
def clsEntry : Option ℚ → DeductionEntry
  | Option.some v =>
    if v ≤ 0.1 then ⟨"CLS", Option.some v, 0, "good"⟩
    else if v ≤ 0.25 then ⟨"CLS", Option.some v, 10, "needs-improvement"⟩
    else ⟨"CLS", Option.some v, 25, "poor"⟩
  | Option.none => ⟨"CLS", Option.none, 15, "missing"⟩

/-- FCP branch: good ≤ 1.8 s, needs-improvement ≤ 3.0 s, poor above, missing −7. -/
def fcpEntry : Option ℚ → DeductionEntry
  | Option.some v =>
    if v ≤ 1.8 then ⟨"FCP", Option.some v, 0, "good"⟩
    else if v ≤ 3.0 then ⟨"FCP", Option.some v, 5, "needs-improvement"⟩
    else ⟨"FCP", Option.some v, 10, "poor"⟩
  | Option.none => ⟨"FCP", Option.none, 7, "missing"⟩

/-- TTI branch: the source guards with `metrics.tti > 0`, so a TTI that is
null **or not positive** takes the missing branch (−7, value recorded null). -/
def ttiEntry : Option ℚ → DeductionEntry
  | Option.some v =>
    if 0 < v then
      if v ≤ 3.8 then ⟨"TTI", Option.some v, 0, "good"⟩
      else if v ≤ 7.3 then ⟨"TTI", Option.some v, 5, "needs-improvement"⟩
      else ⟨"TTI", Option.some v, 10, "poor"⟩
    else ⟨"TTI", Option.none, 7, "missing"⟩
  | Option.none => ⟨"TTI", Option.none, 7, "missing"⟩

/-- TBT branch: good ≤ 200 ms, needs-improvement ≤ 600 ms, poor above, missing −3. -/
def tbtEntry : Option ℚ → DeductionEntry
  | Option.some v =>
    if v ≤ 200 then ⟨"TBT", Option.some v, 0, "good"⟩
    else if v ≤ 600 then ⟨"TBT", Option.some v, 2, "needs-improvement"⟩
    else ⟨"TBT", Option.some v, 5, "poor"⟩
  | Option.none => ⟨"TBT", Option.none, 3, "missing"⟩

/-- Result of `calculatePerformanceScore`: the `deductions` debug array in push
order (LCP, FID, CLS, FCP, TTI, TBT) and the returned `finalScore`. -/
structure ScoreBreakdown where
  deductions : List DeductionEntry
  finalScore : ℤ
deriving DecidableEq

/-- `calculatePerformanceScore`: start at 100, subtract the per-metric
deductions, clamp to [0, 100]. The source applies `Math.round` before the
clamp; the running score is an integer, so the rounding is the identity. -/
def scoreBreakdown (metrics : Metrics) (webVitals : WebVitals) : ScoreBreakdown :=
  let ds : List DeductionEntry :=
    [lcpEntry webVitals.lcp, fidEntry webVitals.fid, clsEntry webVitals.cls,
     fcpEntry metrics.fcp, ttiEntry metrics.tti, tbtEntry metrics.tbt]
  let score : ℤ := 100 - ((ds.map fun d => (d.deduction : ℤ)).sum)
  ⟨ds, max 0 (min 100 score)⟩

/-- The number returned by `calculatePerformanceScore` (the deductions array is
internal debug state; only the clamped score is returned). -/
def calculatePerformanceScore (metrics : Metrics) (webVitals : WebVitals) : ℤ :=
  (scoreBreakdown metrics webVitals).finalScore

/-- `getWebVitalStatus` of the reportProcessor service: null is `"unknown"`,
otherwise the three-tier thresholds per metric name. -/
def getWebVitalStatus (metric : String) (value : Option ℚ) : String :=
  match value with
  | Option.none => "unknown"
  | Option.some v =>
    if metric = "lcp" then
      if v ≤ 2.5 then "good" else if v ≤ 4.0 then "needs-improvement" else "poor"
    else if metric = "fid" then
      if v ≤ 100 then "good" else if v ≤ 300 then "needs-improvement" else "poor"
    else if metric = "cls" then
      if v ≤ 0.1 then "good" else if v ≤ 0.25 then "needs-improvement" else "poor"
    else "unknown"

/-! ## Issue detector (reportProcessor, `identifyIssues`)

`identifyIssues` receives the raw performance data; its network requests may
carry either `url` or `name` and either `resourceType` or `type`, and get
normalized first. The normalized records expose `url`, `resourceType`, `size`
and `duration` only, so the later `req.type` accesses see `undefined`; that is
kept here as a `type` field that normalization always sets to `none`. -/

/-- A raw per-resource network record as it may arrive from the analyzer. -/
structure RawResource where
  url : Option String
  name : Option String
  resourceType : Option String
  type : Option String
  size : Option ℚ
  duration : Option ℚ
deriving DecidableEq

/-- The record produced by the normalization map at the top of `identifyIssues`. -/
structure NormResource where
  url : Option String
  resourceType : Option String
  /-- Absent on normalized records: always `none` (JavaScript `undefined`). -/
  type : Option String
  size : ℚ
  duration : ℚ
deriving DecidableEq

/-- The `network` object of the raw performance data. -/
structure NetworkData where
  /-- `network.requests` (`none` models an absent field). -/
  requests : Option (List RawResource)
  /-- `network.resources` fallback. -/
  resources : Option (List RawResource)
  requestCount : ℕ
  responseCount : ℕ
  totalSize : ℚ
  totalDecodedSize : ℚ
deriving DecidableEq

/-- The raw performance data `identifyIssues` and `processReport` receive. -/
structure PerformanceData where
  network : NetworkData
  metrics : Metrics
  webVitals : WebVitals
  url : Option String
deriving DecidableEq

/-- `const rawRequests = network.requests || network.resources || []` followed
by the field-normalizing `map`. An array is truthy even when empty, so a
present-but-empty `requests` shadows `resources`. -/
def normalizeRequests (network : NetworkData) : List NormResource :=
  let rawRequests :=
    match network.requests with
    | Option.some l => l
    | Option.none => match network.resources with
      | Option.some l => l
      | Option.none => []
  rawRequests.map fun req =>
    ⟨strOr req.url req.name, strOr req.resourceType req.type, Option.none,
     (match req.size with | Option.some v => v | Option.none => 0),
     (match req.duration with | Option.some v => v | Option.none => 0)⟩

/-- An entry of an issue's `files` array (`wasted` is absent on some rules). -/
structure AffectedFile where
  url : Option String
  size : ℚ
  wasted : Option ℤ
deriving DecidableEq

/-- `savings` of an issue: estimated `bytes` and `time` (ms), both `Math.round`ed. -/
structure Savings where
  bytes : ℤ
  time : ℤ
deriving DecidableEq

/-- One detected performance issue. -/
structure Issue where
  id : String
  title : String
  severity : String
  savings : Savings
  files : List AffectedFile
deriving DecidableEq

/-- Issue 1: large JavaScript bundles (any script above 200 KB). -/
def largeJsIssue (requests : List NormResource) : Option Issue :=
  let jsFiles := requests.filter fun req =>
    (req.resourceType == Option.some "script" || req.type == Option.some "script") && 0 < req.size
  let largeJsFiles := jsFiles.filter fun file => 200000 < file.size
  if largeJsFiles.isEmpty then Option.none
  else
    let totalSize := (largeJsFiles.map fun file => file.size).sum
    Option.some
      ⟨"large-javascript-bundles", "Reduce large JavaScript bundles",
       if 1000000 < totalSize then "critical" else "warning",
       ⟨jsRound (totalSize * 0.3), jsRound ((totalSize / 100000) * 100)⟩,
       largeJsFiles.map fun file =>
         ⟨strOr file.url Option.none, file.size, Option.some (jsRound (file.size * 0.3))⟩⟩

/-- Issue 2: unoptimized images (any image above 100 KB). -/
def largeImageIssue (requests : List NormResource) : Option Issue :=
  let imageFiles := requests.filter fun req =>
    (req.resourceType == Option.some "img" || req.type == Option.some "img") && 0 < req.size
  let largeImages := imageFiles.filter fun file => 100000 < file.size
  if largeImages.isEmpty then Option.none
  else
    let totalSize := (largeImages.map fun file => file.size).sum
    Option.some
      ⟨"unoptimized-images", "Optimize images",
       if 500000 < totalSize then "warning" else "info",
       ⟨jsRound (totalSize * 0.4), jsRound ((totalSize / 100000) * 150)⟩,
       largeImages.map fun file =>
         ⟨strOr file.url Option.none, file.size, Option.some (jsRound (file.size * 0.4))⟩⟩

/-- Issue 3: render-blocking style/script resources with duration above 200 ms. -/
def renderBlockingIssue (requests : List NormResource) : Option Issue :=
  let renderBlocking := requests.filter fun req =>
    ((req.resourceType == Option.some "stylesheet" || req.type == Option.some "link"
        || req.type == Option.some "css")
      || (req.resourceType == Option.some "script" || req.type == Option.some "script"))
    && 200 < req.duration
  if renderBlocking.isEmpty then Option.none
  else
    let totalDelay := (renderBlocking.map fun file => file.duration).sum
    Option.some
      ⟨"render-blocking-resources", "Eliminate render-blocking resources",
       if 1000 < totalDelay then "warning" else "info",
       ⟨0, jsRound (totalDelay * 0.5)⟩,
       renderBlocking.map fun file => ⟨strOr file.url Option.none, file.size, Option.none⟩⟩

/-- Issue 4: large CSS files (any stylesheet above 50 KB). -/
def largeCssIssue (requests : List NormResource) : Option Issue :=
  let cssFiles := requests.filter fun req =>
    (req.resourceType == Option.some "stylesheet" || req.type == Option.some "link"
      || req.type == Option.some "css") && 0 < req.size
  let largeCssFiles := cssFiles.filter fun file => 50000 < file.size
  if largeCssFiles.isEmpty then Option.none
  else
    let totalSize := (largeCssFiles.map fun file => file.size).sum
    Option.some
      ⟨"large-css-files", "Reduce unused CSS",
       if 200000 < totalSize then "warning" else "info",
       ⟨jsRound (totalSize * 0.2), jsRound ((totalSize / 100000) * 80)⟩,
       largeCssFiles.map fun file =>
         ⟨strOr file.url Option.none, file.size, Option.some (jsRound (file.size * 0.2))⟩⟩

/-- Issue 5: slow server response (`metrics.fcp && metrics.fcp > 1.8`). -/
def slowResponseIssue (metrics : Metrics) : Option Issue :=
  if qTruthy metrics.fcp &&
      1.8 < (match metrics.fcp with | Option.some v => v | Option.none => 0) then
    let fcp := match metrics.fcp with | Option.some v => v | Option.none => 0
    Option.some
      ⟨"slow-server-response", "Improve server response time",
       if 3.0 < fcp then "warning" else "info",
       ⟨0, jsRound ((fcp - 1.8) * 1000)⟩, []⟩
  else Option.none

/-- Issue 6: too many requests (`network.requestCount > 50`). -/
def tooManyRequestsIssue (network : NetworkData) : Option Issue :=
  if 50 < network.requestCount then
    Option.some
      ⟨"too-many-requests", "Reduce number of requests",
       if 100 < network.requestCount then "warning" else "info",
       ⟨0, jsRound (((network.requestCount : ℚ) - 50) * 10)⟩, []⟩
  else Option.none

/-- Issue 7: large total page size (above 2 MB). -/
def largePageIssue (network : NetworkData) : Option Issue :=
  let totalSizeMB := network.totalSize / (1024 * 1024)
  if 2 < totalSizeMB then
    Option.some
      ⟨"large-page-size", "Reduce total page size",
       if 5 < totalSizeMB then "warning" else "info",
       ⟨jsRound (network.totalSize * 0.2), jsRound (totalSizeMB * 200)⟩, []⟩
  else Option.none

/-- `identifyIssues`: the seven rules applied independently, pushed in order. -/
def identifyIssues (performanceData : PerformanceData) : List Issue :=
  let requests := normalizeRequests performanceData.network
  (largeJsIssue requests).toList ++ (largeImageIssue requests).toList
    ++ (renderBlockingIssue requests).toList ++ (largeCssIssue requests).toList
    ++ (slowResponseIssue performanceData.metrics).toList
    ++ (tooManyRequestsIssue performanceData.network).toList
    ++ (largePageIssue performanceData.network).toList

/-! ## Report processor (reportProcessor, `processReport`)

The passthrough `resourcesByType` aggregate is not modelled; every field a
claim touches is. -/

/-- A processed web vital: value plus status string. -/
structure VitalField where
  value : Option ℚ
  status : String
deriving DecidableEq

/-- The `webVitals` object of the processed report. -/
structure ProcessedWebVitals where
  lcp : VitalField
  fid : VitalField
  cls : VitalField
deriving DecidableEq

/-- The `metrics` object of the processed report. -/
structure ReportMetrics where
  fcp : Option ℚ
  tti : Option ℚ
  speedIndex : Option ℚ
  tbt : Option ℚ
deriving DecidableEq

/-- The processed report returned by `processReport`. -/
structure Report where
  url : Option String
  score : ℤ
  webVitals : ProcessedWebVitals
  metrics : ReportMetrics
  issues : List Issue
deriving DecidableEq

/-- The `normalizedMetrics` of `processReport`: FCP milliseconds → seconds. -/
def normalizedMetricsOf (rawData : PerformanceData) : Metrics :=
  { rawData.metrics with fcp := rawData.metrics.fcp.map fun v => v / 1000 }

/-- The `normalizedWebVitals` of `processReport`: LCP milliseconds → seconds. -/
def normalizedWebVitalsOf (rawData : PerformanceData) : WebVitals :=
  { rawData.webVitals with lcp := rawData.webVitals.lcp.map fun v => v / 1000 }

/-- `processReport`: convert `fcp` and `lcp` from milliseconds to seconds,
compute the score, attach web-vital statuses, identify issues (from the raw,
unconverted data), and null out a non-positive `tti`/`speedIndex`. -/
def processReport (rawData : PerformanceData) : Report :=
  let normalizedMetrics : Metrics := normalizedMetricsOf rawData
  let normalizedWebVitals : WebVitals := normalizedWebVitalsOf rawData
  let score := calculatePerformanceScore normalizedMetrics normalizedWebVitals
  let processedWebVitals : ProcessedWebVitals :=
    ⟨⟨normalizedWebVitals.lcp, getWebVitalStatus "lcp" normalizedWebVitals.lcp⟩,
     ⟨normalizedWebVitals.fid, getWebVitalStatus "fid" normalizedWebVitals.fid⟩,
     ⟨normalizedWebVitals.cls, getWebVitalStatus "cls" normalizedWebVitals.cls⟩⟩
  let issues := identifyIssues rawData
  ⟨rawData.url, score, processedWebVitals,
   ⟨normalizedMetrics.fcp,
    if qTruthy normalizedMetrics.tti && 0 < normalizedMetrics.tti.getD 0 then
      normalizedMetrics.tti else Option.none,
    if qTruthy normalizedMetrics.speedIndex && 0 < normalizedMetrics.speedIndex.getD 0 then
      normalizedMetrics.speedIndex else Option.none,
    normalizedMetrics.tbt⟩,
   issues⟩

/-! ## Timestamp normalization (manual-instrumentation analyzer,
`getRelativeTime` inside `analyzePerformance`)

`NaN` inputs (also falsy in `!timestamp`) are outside the rational model. -/

/-- `getRelativeTime`: zero/falsy timestamps become null; when
`navigationStart` is 0 the value is taken as already relative, otherwise
`navigationStart` is subtracted; any result below 0 or above 600000 ms becomes
null instead of being propagated. -/
def getRelativeTime (navigationStart timestamp : ℚ) : Option ℚ :=
  if timestamp = 0 then Option.none
  else if navigationStart = 0 then
    if timestamp < 0 ∨ 600000 < timestamp then Option.none else Option.some timestamp
  else
    let relative := timestamp - navigationStart
    if relative < 0 ∨ 600000 < relative then Option.none else Option.some relative

/-! ## URL matching and redirect detection (Lighthouse reportProcessor,
`urlsMatch` / `processReport`)

`new URL(...)` is abstracted as the already-parsed `JsUrl` record (the `catch`
branch for unparseable URLs compares the raw strings and is outside the
claims, which quantify over parseable URLs). JavaScript `toLowerCase` is
modelled on the basic-latin range, as `Char.toLower` per character. -/

/-- The components of a parsed URL that `urlsMatch` can observe. -/
structure JsUrl where
  protocol : String
  hostname : String
  port : String
  pathname : String
  search : String
  hash : String
deriving DecidableEq

/-- Character-list form of JavaScript `.toLowerCase()` (basic-latin range). -/
def lowerChars (l : List Char) : List Char := l.map Char.toLower

/-- Character-list form of `.replace(/\/$/, "")`: drop one trailing slash. -/
def stripChars (l : List Char) : List Char :=
  if l.getLast? = Option.some '/' then l.dropLast else l

/-- JavaScript `.toLowerCase()` (basic-latin range). -/
def lowerString (s : String) : String := ⟨lowerChars s.data⟩

/-- JavaScript `.replace(/\/$/, "")`: drop one trailing slash when present. -/
def stripTrailingSlash (s : String) : String := ⟨stripChars s.data⟩

/-- The `normalize` inside `urlsMatch`:
`(parsed.hostname + parsed.pathname).replace(/\/$/, "").toLowerCase()`. -/
def urlNormalize (u : JsUrl) : String :=
  lowerString (stripTrailingSlash (u.hostname ++ u.pathname))

/-- `urlsMatch` on two parseable URLs. -/
def urlsMatch (url1 url2 : JsUrl) : Bool := urlNormalize url1 == urlNormalize url2

/-- The redirect flag of the Lighthouse `processReport`
(`effectiveOriginalUrl && finalUrl && !urlsMatch(...)`), for present,
parseable URLs. -/
def urlRedirected (originalUrl finalUrl : JsUrl) : Bool := !urlsMatch originalUrl finalUrl

/-- Modelled from the spec: "lowercase host+path, trailing slash stripped" —
the spec's normal form, lowercasing first and then stripping the trailing
slash, to be compared with the source's `urlNormalize`. -/
def specUrlNormalize (u : JsUrl) : String :=
  stripTrailingSlash (lowerString (u.hostname ++ u.pathname))

/-! ## Session context builder (performanceAnalyzer service,
`injectAuthentication`)

Only the credential classification and the returned `extraHeaders` are
modelled; the CDP/browser side effects (storage and cookie injection) have
their failures caught in the source and do not affect the returned value. -/

/-- One element of an `auth.cookies` array: a string or a `{name, value}` object. -/
inductive CookieItem where
  | plain (s : String)
  | obj (name value : String)
deriving DecidableEq

/-- The `auth.cookies` field: absent, a cookie string, or an array. -/
inductive CookiesField where
  | absent
  | str (s : String)
  | arr (items : List CookieItem)
deriving DecidableEq

/-- The credential bundle given to `injectAuthentication`. String-keyed
objects are association lists. -/
structure AuthBundle where
  type : String
  cookies : CookiesField
  headers : Option (List (String × String))
  localStorage : Option (List (String × String))
  sessionStorage : Option (List (String × String))
  loginUrl : Option String
  username : Option String
  password : Option String
deriving DecidableEq

/-- Rendering of one array element in the cookie-string build
(`typeof c === "string" ? c : c.name + "=" + c.value`). -/
def cookieItemString : CookieItem → String
  | CookieItem.plain s => s
  | CookieItem.obj name value => name ++ "=" ++ value

/-- The `cookieString` built at the top of `injectAuthentication`: a truthy
string is trimmed; an array (truthy even when empty) is joined with `"; "`. -/
def cookieStringOf : CookiesField → String
  | CookiesField.absent => ""
  | CookiesField.str s => if s = "" then "" else s.trim
  | CookiesField.arr items => String.intercalate "; " (items.map cookieItemString)

/-- `obj && Object.keys(obj).length > 0` for an optional string-keyed object. -/
def objNonEmpty : Option (List (String × String)) → Bool
  | Option.none => false
  | Option.some kvs => !kvs.isEmpty

/-- `hasCookies`: the built cookie string is non-empty. -/
def hasCookies (auth : AuthBundle) : Bool := 0 < (cookieStringOf auth.cookies).length

/-- `hasHeaders`: a non-empty `auth.headers` object. -/
def hasHeaders (auth : AuthBundle) : Bool := objNonEmpty auth.headers

/-- `hasLocalStorage`: a non-empty `auth.localStorage` object. -/
def hasLocalStorage (auth : AuthBundle) : Bool := objNonEmpty auth.localStorage

/-- `hasSessionStorage`: a non-empty `auth.sessionStorage` object. -/
def hasSessionStorage (auth : AuthBundle) : Bool := objNonEmpty auth.sessionStorage

/-- `hasLoginCredentials`: a complete login descriptor
(`auth.type === "login" && auth.loginUrl && auth.username && auth.password`). -/
def hasLoginCredentials (auth : AuthBundle) : Bool :=
  auth.type == "login" && strTruthy auth.loginUrl && strTruthy auth.username
    && strTruthy auth.password

/-- The common token field names scanned by `extractJwtFromLocalStorage`. -/
def tokenFields : List String :=
  ["token", "access_token", "accessToken", "auth_token", "authToken", "jwt",
   "id_token", "idToken"]

/-- `extractJwtFromLocalStorage`: the first token field holding a truthy value
that starts with `"eyJ"`, with its field name. -/
def extractJwtFromLocalStorage (localStorage : Option (List (String × String))) :
    Option (String × String) :=
  match localStorage with
  | Option.none => Option.none
  | Option.some kvs =>
    tokenFields.findSome? fun field =>
      match kvs.lookup field with
      | Option.some token =>
        if token ≠ "" ∧ token.startsWith "eyJ" then Option.some (field, token)
        else Option.none
      | Option.none => Option.none

/-- The structured error thrown by the analyzer (`PerformanceAnalysisError`). -/
structure PerformanceAnalysisError where
  message : String
  code : String
  statusCode : ℕ
deriving DecidableEq

/-- The value `injectAuthentication` resolves with. -/
structure AuthResult where
  extraHeaders : List (String × String)
deriving DecidableEq

/-- `injectAuthentication` (header-building part): with no usable credential
it returns `{ extraHeaders: {} }` before any fallible operation; otherwise it
assembles the JWT `Authorization`, `Cookie`, and cURL `Authorization` headers. -/
def injectAuthentication (auth : AuthBundle) :
    Except PerformanceAnalysisError AuthResult :=
  let cookieString := cookieStringOf auth.cookies
  let jwtInfo := extractJwtFromLocalStorage auth.localStorage
  if !hasCookies auth && !hasHeaders auth && !hasLocalStorage auth
      && !hasSessionStorage auth && !hasLoginCredentials auth then
    Except.ok ⟨[]⟩
  else
    let jwtHeaders : List (String × String) :=
      match jwtInfo with
      | Option.some (_, token) => [("Authorization", "Bearer " ++ token)]
      | Option.none => []
    let withCookie := jwtHeaders ++ (if hasCookies auth then [("Cookie", cookieString)] else [])
    let withCurlAuth := withCookie ++
      (match auth.headers with
       | Option.some hdrs =>
         match hdrs.lookup "authorization" with
         | Option.some v =>
           if v ≠ "" ∧ (withCookie.lookup "Authorization").isNone then [("Authorization", v)]
           else []
         | Option.none => []
       | Option.none => [])
    Except.ok ⟨withCurlAuth⟩

/-! ## Error classification (`analyzePerformance` catch blocks, both
generations of the analyzer service) -/

/-- A raw JavaScript error as observed by a catch block. -/
structure JsError where
  name : String
  message : String
deriving DecidableEq

/-- Substring search on character lists (helper for `String.includes`). -/
def charsInclude (needle : List Char) : List Char → Bool
  | [] => needle.isEmpty
  | c :: cs => List.isPrefixOf needle (c :: cs) || charsInclude needle cs

/-- JavaScript `s.includes(sub)`. -/
def jsIncludes (s sub : String) : Bool := charsInclude sub.data s.data

/-- What the Lighthouse-generation catch block may receive: an already-typed
`PerformanceAnalysisError` or a raw error. -/
inductive CaughtError where
  | perfError (e : PerformanceAnalysisError)
  | jsError (e : JsError)
deriving DecidableEq

/-- Catch block of the Lighthouse-generation `analyzePerformance`: rethrow
typed errors; `ECONNREFUSED`/`net::ERR` becomes NETWORK_ERROR 502; a
`timeout`/`Timeout` message becomes TIMEOUT 408; anything else
ANALYSIS_ERROR 500. -/
def rethrownErrorV1 : CaughtError → PerformanceAnalysisError
  | CaughtError.perfError e => e
  | CaughtError.jsError e =>
    if jsIncludes e.message "ECONNREFUSED" || jsIncludes e.message "net::ERR" then
      ⟨"Could not connect to URL", "NETWORK_ERROR", 502⟩
    else if jsIncludes e.message "timeout" || jsIncludes e.message "Timeout" then
      ⟨"Page load timeout", "TIMEOUT", 408⟩
    else
      ⟨if e.message = "" then "Failed to analyze performance" else e.message,
       "ANALYSIS_ERROR", 500⟩

/-- Catch block of the manual-instrumentation `analyzePerformance`: a
`TimeoutError` becomes TIMEOUT 408; a `net::ERR` message becomes
NETWORK_ERROR 502; anything else ANALYSIS_ERROR 500. -/
def rethrownErrorV2 (e : JsError) : PerformanceAnalysisError :=
  if e.name = "TimeoutError" then
    ⟨"Page load timeout - URL took too long to load", "TIMEOUT", 408⟩
  else if jsIncludes e.message "net::ERR" then
    ⟨"Network error while loading page", "NETWORK_ERROR", 502⟩
  else
    ⟨if e.message = "" then "Failed to analyze performance" else e.message,
     "ANALYSIS_ERROR", 500⟩

/-- The single attempt of `analyzePerformance`: a failed navigation surfaces
its classified error to the caller; there is no retry path. -/
def analyzePerformanceResult {α : Type} (outcome : Except JsError α) :
    Except PerformanceAnalysisError α :=
  match outcome with
  | Except.ok a => Except.ok a
  | Except.error e => Except.error (rethrownErrorV2 e)

/-! ## Helper lemmas -/

theorem jsRound_intCast (z : ℤ) : jsRound (z : ℚ) = z := by
  unfold jsRound
  rw [add_comm, Int.floor_add_int]
  norm_num

theorem jsRound_nonneg {q : ℚ} (h : 0 ≤ q) : 0 ≤ jsRound q := by
  unfold jsRound
  rw [Int.le_floor]
  push_cast
  linarith

theorem ofNat_high_ne_slash : ∀ n : Nat, n < 123 → 97 ≤ n → Char.ofNat n ≠ '/' := by
  decide

theorem toLower_slash : Char.toLower '/' = '/' := by decide

theorem toLower_ne_slash (c : Char) (h : c ≠ '/') : Char.toLower c ≠ '/' := by
  simp only [Char.toLower]
  split
  next hcond => exact ofNat_high_ne_slash _ (by omega) (by omega)
  next => exact h

/-- The `lowerChars` applied after `stripChars` equals `stripChars` applied
after `lowerChars`: lowercasing never creates or destroys a trailing slash. -/
theorem stripChars_lowerChars (l : List Char) :
    stripChars (lowerChars l) = lowerChars (stripChars l) := by
  unfold stripChars lowerChars
  rcases hl : l.getLast? with _ | c
  · rw [List.getLast?_map, hl]
    simp
  · rw [List.getLast?_map, hl]
    simp only [Option.map_some']
    by_cases hc : c = '/'
    · subst hc
      rw [if_pos (show Option.some (Char.toLower '/') = Option.some '/' by
            rw [toLower_slash]),
          if_pos rfl]
      exact (List.map_dropLast _ _).symm
    · rw [if_neg (show ¬Option.some (Char.toLower c) = Option.some '/' by
            simp only [Option.some.injEq]
            exact toLower_ne_slash c hc),
          if_neg (by simp only [Option.some.injEq]; exact hc)]

theorem urlNormalize_eq_specUrlNormalize (u : JsUrl) :
    urlNormalize u = specUrlNormalize u := by
  unfold urlNormalize specUrlNormalize lowerString stripTrailingSlash
  show String.mk (lowerChars (stripChars (u.hostname ++ u.pathname).data))
      = String.mk (stripChars (lowerChars (u.hostname ++ u.pathname).data))
  exact congrArg String.mk (stripChars_lowerChars _).symm

/-! ## Claim theorems -/

/-- C1: for the input with LCP, FID, FCP and TTI missing, CLS = 0 and TBT = 0,
`calculatePerformanceScore` records the deductions 15, 0, 0, 7, 7, 0
(summing to 29) and returns the final score 71. -/
theorem claim_C1_deductions_29_score_71 :
    ((scoreBreakdown ⟨Option.none, Option.none, Option.none, Option.some 0⟩
        ⟨Option.none, Option.none, Option.some 0⟩).deductions.map fun d => d.deduction)
      = [15, 0, 0, 7, 7, 0]
    ∧ calculatePerformanceScore ⟨Option.none, Option.none, Option.none, Option.some 0⟩
        ⟨Option.none, Option.none, Option.some 0⟩ = 71 := by
  constructor <;>
    norm_num [calculatePerformanceScore, scoreBreakdown, lcpEntry, fidEntry,
      clsEntry, fcpEntry, ttiEntry, tbtEntry]

/-- C2: the timestamp-normalization step only ever produces null or a value
inside [0, 600000] ms; any input normalizing outside that range maps to null. -/
theorem claim_C2_normalize_in_range (navigationStart timestamp v : ℚ)
    (h : getRelativeTime navigationStart timestamp = Option.some v) :
    0 ≤ v ∧ v ≤ 600000 := by
  simp only [getRelativeTime] at h
  by_cases h0 : timestamp = 0
  · rw [if_pos h0] at h
    exact absurd h (by simp)
  · rw [if_neg h0] at h
    by_cases h1 : navigationStart = 0
    · rw [if_pos h1] at h
      by_cases h2 : timestamp < 0 ∨ 600000 < timestamp
      · rw [if_pos h2] at h
        exact absurd h (by simp)
      · rw [if_neg h2] at h
        injection h with h'
        subst h'
        rw [not_or] at h2
        exact ⟨le_of_not_lt h2.1, le_of_not_lt h2.2⟩
    · rw [if_neg h1] at h
      by_cases h3 : timestamp - navigationStart < 0 ∨ 600000 < timestamp - navigationStart
      · rw [if_pos h3] at h
        exact absurd h (by simp)
      · rw [if_neg h3] at h
        injection h with h'
        subst h'
        rw [not_or] at h3
        exact ⟨le_of_not_lt h3.1, le_of_not_lt h3.2⟩

theorem claim_C2_witness : (0 : ℚ) ≤ 1234 ∧ (1234 : ℚ) ≤ 600000 :=
  claim_C2_normalize_in_range 0 1234 1234 (by norm_num [getRelativeTime])

/-- C7: a credential bundle with no cookies, no headers, no localStorage, no
sessionStorage and no complete login descriptor makes `injectAuthentication`
return an empty extra-headers map, not an error. -/
theorem claim_C7_empty_bundle_empty_context (auth : AuthBundle)
    (h1 : hasCookies auth = false) (h2 : hasHeaders auth = false)
    (h3 : hasLocalStorage auth = false) (h4 : hasSessionStorage auth = false)
    (h5 : hasLoginCredentials auth = false) :
    injectAuthentication auth = Except.ok ⟨[]⟩ := by
  unfold injectAuthentication
  rw [h1, h2, h3, h4, h5]
  simp

theorem claim_C7_witness :
    injectAuthentication
      ⟨"session", CookiesField.absent, Option.none, Option.none, Option.none,
       Option.none, Option.none, Option.none⟩ = Except.ok ⟨[]⟩ :=
  claim_C7_empty_bundle_empty_context _ (by decide) (by decide) (by decide)
    (by decide) (by decide)

/-- C9: a TTI of exactly 0 is scored as missing (deduction 7, status
`"missing"`, recorded value null) and reported as null by `processReport`,
although 0 is below the good-tier bound of 3.8 s. -/
theorem claim_C9_tti_zero_is_missing (rawData : PerformanceData)
    (h : rawData.metrics.tti = Option.some 0) :
    ttiEntry rawData.metrics.tti = ⟨"TTI", Option.none, 7, "missing"⟩
    ∧ (∃ d ∈ (scoreBreakdown (normalizedMetricsOf rawData)
          (normalizedWebVitalsOf rawData)).deductions,
        d.metric = "TTI" ∧ d.status = "missing" ∧ d.deduction = 7)
    ∧ (processReport rawData).metrics.tti = Option.none
    ∧ (0 : ℚ) ≤ 3.8 := by
  refine ⟨by rw [h]; norm_num [ttiEntry],
    ⟨ttiEntry (Option.some 0), ?_, by norm_num [ttiEntry]⟩, ?_, by norm_num⟩
  · have htti : (normalizedMetricsOf rawData).tti = Option.some 0 := h
    simp [scoreBreakdown, htti]
  · have htti : (normalizedMetricsOf rawData).tti = Option.some 0 := h
    simp [processReport, htti, qTruthy]

theorem claim_C9_witness :
    (processReport
      ⟨⟨Option.none, Option.none, 0, 0, 0, 0⟩,
       ⟨Option.none, Option.some 0, Option.none, Option.none⟩,
       ⟨Option.none, Option.none, Option.none⟩, Option.none⟩).metrics.tti
    = Option.none :=
  (claim_C9_tti_zero_is_missing _ rfl).2.2.1

/-- C10: URL comparison ignores scheme, port, query and fragment: two parsed
URLs with equal hostname and pathname always match, so no redirect is
flagged. -/
theorem claim_C10_scheme_port_query_fragment_ignored (url1 url2 : JsUrl)
    (hhost : url1.hostname = url2.hostname) (hpath : url1.pathname = url2.pathname) :
    urlsMatch url1 url2 = true ∧ urlRedirected url1 url2 = false := by
  have hm : urlsMatch url1 url2 = true := by
    unfold urlsMatch urlNormalize
    rw [hhost, hpath]
    exact beq_self_eq_true _
  exact ⟨hm, by rw [urlRedirected, hm]; rfl⟩

theorem claim_C10_witness :
    urlsMatch ⟨"http:", "example.com", "", "/path", "?page=1", "#top"⟩
      ⟨"https:", "example.com", "8080", "/path", "", ""⟩ = true
    ∧ urlRedirected ⟨"http:", "example.com", "", "/path", "?page=1", "#top"⟩
      ⟨"https:", "example.com", "8080", "/path", "", ""⟩ = false :=
  claim_C10_scheme_port_query_fragment_ignored _ _ rfl rfl

/-- C8: a navigation timeout is rethrown as a `PerformanceAnalysisError` with
code TIMEOUT and HTTP status 408, and a DNS/connection failure as
NETWORK_ERROR with 502, in both generations of `analyzePerformance`; the
classified error is the outcome of the single analysis attempt, surfaced to
the caller. -/
theorem claim_C8_timeout_408_network_502 (e : JsError) :
    (e.name = "TimeoutError" →
      (rethrownErrorV2 e).code = "TIMEOUT" ∧ (rethrownErrorV2 e).statusCode = 408) ∧
    (e.name ≠ "TimeoutError" → jsIncludes e.message "net::ERR" = true →
      (rethrownErrorV2 e).code = "NETWORK_ERROR" ∧ (rethrownErrorV2 e).statusCode = 502) ∧
    ((jsIncludes e.message "timeout" = true ∨ jsIncludes e.message "Timeout" = true) →
      jsIncludes e.message "ECONNREFUSED" = false → jsIncludes e.message "net::ERR" = false →
      (rethrownErrorV1 (CaughtError.jsError e)).code = "TIMEOUT"
        ∧ (rethrownErrorV1 (CaughtError.jsError e)).statusCode = 408) ∧
    (jsIncludes e.message "net::ERR" = true →
      (rethrownErrorV1 (CaughtError.jsError e)).code = "NETWORK_ERROR"
        ∧ (rethrownErrorV1 (CaughtError.jsError e)).statusCode = 502) ∧
    analyzePerformanceResult (Except.error e : Except JsError Unit)
      = Except.error (rethrownErrorV2 e) := by
  refine ⟨fun h => ?_, fun h hn => ?_, fun ht hc hn => ?_, fun hn => ?_, rfl⟩
  · simp [rethrownErrorV2, h]
  · simp [rethrownErrorV2, h, hn]
  · rcases ht with ht | ht <;> simp [rethrownErrorV1, ht, hc, hn]
  · simp [rethrownErrorV1, hn]

theorem claim_C8_witness :
    ((rethrownErrorV2 ⟨"TimeoutError", "Timeout 30000ms exceeded"⟩).code = "TIMEOUT"
      ∧ (rethrownErrorV2 ⟨"TimeoutError", "Timeout 30000ms exceeded"⟩).statusCode = 408)
    ∧ ((rethrownErrorV1
          (CaughtError.jsError ⟨"Error", "net::ERR_NAME_NOT_RESOLVED"⟩)).code = "NETWORK_ERROR"
      ∧ (rethrownErrorV1
          (CaughtError.jsError ⟨"Error", "net::ERR_NAME_NOT_RESOLVED"⟩)).statusCode = 502) :=
  ⟨(claim_C8_timeout_408_network_502 ⟨"TimeoutError", "Timeout 30000ms exceeded"⟩).1 rfl,
   (claim_C8_timeout_408_network_502 ⟨"Error", "net::ERR_NAME_NOT_RESOLVED"⟩).2.2.2.1
     (by decide)⟩

/-- C4: redirect detection is invariant to trailing-slash and case
differences: two parseable URLs with equal spec-normal forms (lowercased
host+path, trailing slash stripped) are matched by `urlsMatch` and no
redirect is flagged; when the normal forms differ, `urlsMatch` rejects them
and a redirect is flagged. -/
theorem claim_C4_slash_case_invariance (url1 url2 : JsUrl) :
    (specUrlNormalize url1 = specUrlNormalize url2 →
      urlsMatch url1 url2 = true ∧ urlRedirected url1 url2 = false) ∧
    (specUrlNormalize url1 ≠ specUrlNormalize url2 →
      urlsMatch url1 url2 = false ∧ urlRedirected url1 url2 = true) := by
  have key : urlsMatch url1 url2 = (specUrlNormalize url1 == specUrlNormalize url2) := by
    unfold urlsMatch
    rw [urlNormalize_eq_specUrlNormalize, urlNormalize_eq_specUrlNormalize]
  constructor
  · intro h
    have hm : urlsMatch url1 url2 = true := by
      rw [key, h]
      exact beq_self_eq_true _
    exact ⟨hm, by rw [urlRedirected, hm]; rfl⟩
  · intro h
    have hm : urlsMatch url1 url2 = false := by
      rw [key]
      exact beq_eq_false_iff_ne.mpr h
    exact ⟨hm, by rw [urlRedirected, hm]; rfl⟩

theorem claim_C4_witness :
    urlsMatch ⟨"https:", "example.com", "", "/Path/", "", ""⟩
        ⟨"https:", "example.com", "", "/path", "", ""⟩ = true
    ∧ urlRedirected ⟨"https:", "example.com", "", "/Path/", "", ""⟩
        ⟨"https:", "example.com", "", "/path", "", ""⟩ = false :=
  (claim_C4_slash_case_invariance _ _).1 (by decide)

/-- C3: in the score calculator a null value for every metric except FID is
recorded with status `"missing"` and a strictly positive deduction; a null
FID is recorded with status `"not-applicable"` and deduction 0. -/
theorem claim_C3_null_missing_except_fid (metrics : Metrics) (webVitals : WebVitals) :
    (webVitals.lcp = Option.none →
      ∃ d ∈ (scoreBreakdown metrics webVitals).deductions,
        d.metric = "LCP" ∧ d.status = "missing" ∧ 0 < d.deduction) ∧
    (webVitals.cls = Option.none →
      ∃ d ∈ (scoreBreakdown metrics webVitals).deductions,
        d.metric = "CLS" ∧ d.status = "missing" ∧ 0 < d.deduction) ∧
    (metrics.fcp = Option.none →
      ∃ d ∈ (scoreBreakdown metrics webVitals).deductions,
        d.metric = "FCP" ∧ d.status = "missing" ∧ 0 < d.deduction) ∧
    (metrics.tti = Option.none →
      ∃ d ∈ (scoreBreakdown metrics webVitals).deductions,
        d.metric = "TTI" ∧ d.status = "missing" ∧ 0 < d.deduction) ∧
    (metrics.tbt = Option.none →
      ∃ d ∈ (scoreBreakdown metrics webVitals).deductions,
        d.metric = "TBT" ∧ d.status = "missing" ∧ 0 < d.deduction) ∧
    (webVitals.fid = Option.none →
      ∃ d ∈ (scoreBreakdown metrics webVitals).deductions,
        d.metric = "FID" ∧ d.status = "not-applicable" ∧ d.deduction = 0) := by
  refine ⟨fun h => ⟨lcpEntry webVitals.lcp, by simp [scoreBreakdown], ?_⟩,
    fun h => ⟨clsEntry webVitals.cls, by simp [scoreBreakdown], ?_⟩,
    fun h => ⟨fcpEntry metrics.fcp, by simp [scoreBreakdown], ?_⟩,
    fun h => ⟨ttiEntry metrics.tti, by simp [scoreBreakdown], ?_⟩,
    fun h => ⟨tbtEntry metrics.tbt, by simp [scoreBreakdown], ?_⟩,
    fun h => ⟨fidEntry webVitals.fid, by simp [scoreBreakdown], ?_⟩⟩ <;>
    rw [h] <;> exact ⟨rfl, rfl, by decide⟩

theorem claim_C3_witness :
    ∃ d ∈ (scoreBreakdown ⟨Option.none, Option.none, Option.none, Option.none⟩
        ⟨Option.none, Option.none, Option.none⟩).deductions,
      d.metric = "FID" ∧ d.status = "not-applicable" ∧ d.deduction = 0 :=
  (claim_C3_null_missing_except_fid _ _).2.2.2.2.2 rfl

theorem sum_map_nonneg {α : Type} (l : List α) (f : α → ℚ)
    (h : ∀ a ∈ l, 0 ≤ f a) : 0 ≤ (l.map f).sum := by
  apply List.sum_nonneg
  intro x hx
  rcases List.mem_map.mp hx with ⟨a, ha, rfl⟩
  exact h a ha

/-- Membership facts for issue 1: its id and non-negative savings. -/
theorem largeJsIssue_mem {requests : List NormResource} {i : Issue}
    (h : i ∈ (largeJsIssue requests).toList) :
    i.id = "large-javascript-bundles" ∧ 0 ≤ i.savings.bytes ∧ 0 ≤ i.savings.time := by
  simp only [largeJsIssue] at h
  split at h
  · simp at h
  · simp only [Option.toList_some, List.mem_singleton] at h
    subst h
    have hS : 0 ≤ ((((requests.filter fun req =>
        (req.resourceType == Option.some "script" || req.type == Option.some "script")
          && 0 < req.size).filter fun file => 200000 < file.size).map
            fun file => file.size).sum) := by
      apply sum_map_nonneg
      intro r hr
      have h2 := of_decide_eq_true (List.mem_filter.mp hr).2
      linarith
    exact ⟨rfl, jsRound_nonneg (by nlinarith), jsRound_nonneg (by nlinarith)⟩

/-- Membership facts for issue 2: its id and non-negative savings. -/
theorem largeImageIssue_mem {requests : List NormResource} {i : Issue}
    (h : i ∈ (largeImageIssue requests).toList) :
    i.id = "unoptimized-images" ∧ 0 ≤ i.savings.bytes ∧ 0 ≤ i.savings.time := by
  simp only [largeImageIssue] at h
  split at h
  · simp at h
  · simp only [Option.toList_some, List.mem_singleton] at h
    subst h
    have hS : 0 ≤ ((((requests.filter fun req =>
        (req.resourceType == Option.some "img" || req.type == Option.some "img")
          && 0 < req.size).filter fun file => 100000 < file.size).map
            fun file => file.size).sum) := by
      apply sum_map_nonneg
      intro r hr
      have h2 := of_decide_eq_true (List.mem_filter.mp hr).2
      linarith
    exact ⟨rfl, jsRound_nonneg (by nlinarith), jsRound_nonneg (by nlinarith)⟩

/-- Membership facts for issue 3: its id and non-negative savings. -/
theorem renderBlockingIssue_mem {requests : List NormResource} {i : Issue}
    (h : i ∈ (renderBlockingIssue requests).toList) :
    i.id = "render-blocking-resources" ∧ 0 ≤ i.savings.bytes ∧ 0 ≤ i.savings.time := by
  simp only [renderBlockingIssue] at h
  split at h
  · simp at h
  · simp only [Option.toList_some, List.mem_singleton] at h
    subst h
    have hS : 0 ≤ ((requests.filter fun req =>
        ((req.resourceType == Option.some "stylesheet" || req.type == Option.some "link"
            || req.type == Option.some "css")
          || (req.resourceType == Option.some "script" || req.type == Option.some "script"))
        && 200 < req.duration).map fun file => file.duration).sum := by
      apply sum_map_nonneg
      intro r hr
      have h2 := (List.mem_filter.mp hr).2
      rw [Bool.and_eq_true] at h2
      have h3 := of_decide_eq_true h2.2
      linarith
    exact ⟨rfl, by norm_num, jsRound_nonneg (by nlinarith)⟩

/-- Membership facts for issue 4: its id and non-negative savings. -/
theorem largeCssIssue_mem {requests : List NormResource} {i : Issue}
    (h : i ∈ (largeCssIssue requests).toList) :
    i.id = "large-css-files" ∧ 0 ≤ i.savings.bytes ∧ 0 ≤ i.savings.time := by
  simp only [largeCssIssue] at h
  split at h
  · simp at h
  · simp only [Option.toList_some, List.mem_singleton] at h
    subst h
    have hS : 0 ≤ ((((requests.filter fun req =>
        (req.resourceType == Option.some "stylesheet" || req.type == Option.some "link"
          || req.type == Option.some "css") && 0 < req.size).filter
            fun file => 50000 < file.size).map fun file => file.size).sum) := by
      apply sum_map_nonneg
      intro r hr
      have h2 := of_decide_eq_true (List.mem_filter.mp hr).2
      linarith
    exact ⟨rfl, jsRound_nonneg (by nlinarith), jsRound_nonneg (by nlinarith)⟩

/-- Membership facts for issue 5: its id and non-negative savings. -/
theorem slowResponseIssue_mem {metrics : Metrics} {i : Issue}
    (h : i ∈ (slowResponseIssue metrics).toList) :
    i.id = "slow-server-response" ∧ 0 ≤ i.savings.bytes ∧ 0 ≤ i.savings.time := by
  simp only [slowResponseIssue] at h
  split at h
  next hc =>
    rw [Bool.and_eq_true] at hc
    have h2 := of_decide_eq_true hc.2
    simp only [Option.toList_some, List.mem_singleton] at h
    subst h
    exact ⟨rfl, by norm_num, jsRound_nonneg (by nlinarith)⟩
  next => simp at h

/-- Membership facts for issue 6: its id and non-negative savings. -/
theorem tooManyRequestsIssue_mem {network : NetworkData} {i : Issue}
    (h : i ∈ (tooManyRequestsIssue network).toList) :
    i.id = "too-many-requests" ∧ 0 ≤ i.savings.bytes ∧ 0 ≤ i.savings.time := by
  simp only [tooManyRequestsIssue] at h
  split at h
  next hc =>
    simp only [Option.toList_some, List.mem_singleton] at h
    subst h
    have h2 : (50 : ℚ) < (network.requestCount : ℚ) := by exact_mod_cast hc
    exact ⟨rfl, by norm_num, jsRound_nonneg (by nlinarith)⟩
  next => simp at h

/-- Membership facts for issue 7: its id and non-negative savings. -/
theorem largePageIssue_mem {network : NetworkData} {i : Issue}
    (h : i ∈ (largePageIssue network).toList) :
    i.id = "large-page-size" ∧ 0 ≤ i.savings.bytes ∧ 0 ≤ i.savings.time := by
  simp only [largePageIssue] at h
  split at h
  next hc =>
    simp only [Option.toList_some, List.mem_singleton] at h
    subst h
    rw [lt_div_iff₀ (by norm_num : (0 : ℚ) < 1024 * 1024)] at hc
    exact ⟨rfl, jsRound_nonneg (by nlinarith),
      jsRound_nonneg (mul_nonneg (div_nonneg (by nlinarith) (by norm_num)) (by norm_num))⟩
  next => simp at h

/-- C6: on performance data whose normalized resource records have
non-negative sizes and durations and whose total size is non-negative (the
request count, a natural number, is non-negative by type), every issue the
detector returns has non-negative estimated byte and time savings. -/
theorem claim_C6_savings_nonneg (performanceData : PerformanceData)
    (hres : ∀ r ∈ normalizeRequests performanceData.network, 0 ≤ r.size ∧ 0 ≤ r.duration)
    (htot : 0 ≤ performanceData.network.totalSize) :
    ∀ i ∈ identifyIssues performanceData, 0 ≤ i.savings.bytes ∧ 0 ≤ i.savings.time := by
  intro i hi
  simp only [identifyIssues, List.mem_append] at hi
  rcases hi with ((((((h | h) | h) | h) | h) | h) | h)
  · exact (largeJsIssue_mem h).2
  · exact (largeImageIssue_mem h).2
  · exact (renderBlockingIssue_mem h).2
  · exact (largeCssIssue_mem h).2
  · exact (slowResponseIssue_mem h).2
  · exact (tooManyRequestsIssue_mem h).2
  · exact (largePageIssue_mem h).2

theorem claim_C6_witness :
    0 ≤ (Issue.mk "too-many-requests" "Reduce number of requests" "info"
        ⟨0, 100⟩ []).savings.bytes
    ∧ 0 ≤ (Issue.mk "too-many-requests" "Reduce number of requests" "info"
        ⟨0, 100⟩ []).savings.time :=
  claim_C6_savings_nonneg
    ⟨⟨Option.none, Option.none, 60, 60, 0, 0⟩,
     ⟨Option.none, Option.none, Option.none, Option.none⟩,
     ⟨Option.none, Option.none, Option.none⟩, Option.none⟩
    (by intro r hr; simp [normalizeRequests] at hr) (by norm_num)
    (Issue.mk "too-many-requests" "Reduce number of requests" "info" ⟨0, 100⟩ [])
    (by
      simp only [identifyIssues, List.mem_append]
      refine Or.inl (Or.inr ?_)
      simp only [tooManyRequestsIssue]
      rw [if_pos (by norm_num : (50 : ℕ) < 60)]
      simp only [Option.toList_some, List.mem_singleton]
      norm_num [jsRound, Issue.mk.injEq, Savings.mk.injEq])

/-- C5: the excessive-requests rule fires exactly when the request count
exceeds 50, and the issue it emits has time savings 10 ms × (count − 50) and
byte savings 0. -/
theorem claim_C5_excessive_requests (performanceData : PerformanceData) :
    ((∃ i ∈ identifyIssues performanceData, i.id = "too-many-requests")
      ↔ 50 < performanceData.network.requestCount)
    ∧ (∀ i ∈ identifyIssues performanceData, i.id = "too-many-requests" →
        i.savings.time = 10 * ((performanceData.network.requestCount : ℤ) - 50)
          ∧ i.savings.bytes = 0) := by
  constructor
  · constructor
    · rintro ⟨i, hi, hid⟩
      simp only [identifyIssues, List.mem_append] at hi
      rcases hi with ((((((h | h) | h) | h) | h) | h) | h)
      · exact absurd ((largeJsIssue_mem h).1.symm.trans hid) (by decide)
      · exact absurd ((largeImageIssue_mem h).1.symm.trans hid) (by decide)
      · exact absurd ((renderBlockingIssue_mem h).1.symm.trans hid) (by decide)
      · exact absurd ((largeCssIssue_mem h).1.symm.trans hid) (by decide)
      · exact absurd ((slowResponseIssue_mem h).1.symm.trans hid) (by decide)
      · simp only [tooManyRequestsIssue] at h
        split at h
        next hc => exact hc
        next => simp at h
      · exact absurd ((largePageIssue_mem h).1.symm.trans hid) (by decide)
    · intro hc
      refine ⟨⟨"too-many-requests", "Reduce number of requests",
          if 100 < performanceData.network.requestCount then "warning" else "info",
          ⟨0, jsRound (((performanceData.network.requestCount : ℚ) - 50) * 10)⟩, []⟩,
        ?_, rfl⟩
      simp only [identifyIssues, List.mem_append]
      refine Or.inl (Or.inr ?_)
      simp only [tooManyRequestsIssue]
      rw [if_pos hc]
      simp
  · intro i hi hid
    simp only [identifyIssues, List.mem_append] at hi
    rcases hi with ((((((h | h) | h) | h) | h) | h) | h)
    · exact absurd ((largeJsIssue_mem h).1.symm.trans hid) (by decide)
    · exact absurd ((largeImageIssue_mem h).1.symm.trans hid) (by decide)
    · exact absurd ((renderBlockingIssue_mem h).1.symm.trans hid) (by decide)
    · exact absurd ((largeCssIssue_mem h).1.symm.trans hid) (by decide)
    · exact absurd ((slowResponseIssue_mem h).1.symm.trans hid) (by decide)
    · simp only [tooManyRequestsIssue] at h
      split at h
      next hc =>
        simp only [Option.toList_some, List.mem_singleton] at h
        subst h
        refine ⟨?_, rfl⟩
        show jsRound
          (((performanceData.network.requestCount : ℚ) - 50) * 10)
            = 10 * ((performanceData.network.requestCount : ℤ) - 50)
        rw [show ((performanceData.network.requestCount : ℚ) - 50) * 10
            = (((10 * ((performanceData.network.requestCount : ℤ) - 50)) : ℤ) : ℚ) by
          push_cast; ring]
        exact jsRound_intCast _
      next => simp at h
    · exact absurd ((largePageIssue_mem h).1.symm.trans hid) (by decide)

theorem claim_C5_witness :
    (∃ i ∈ identifyIssues
        ⟨⟨Option.none, Option.none, 60, 60, 0, 0⟩,
         ⟨Option.none, Option.none, Option.none, Option.none⟩,
         ⟨Option.none, Option.none, Option.none⟩, Option.none⟩,
      i.id = "too-many-requests")
    ∧ 50 < (60 : ℕ) :=
  ⟨(claim_C5_excessive_requests
      ⟨⟨Option.none, Option.none, 60, 60, 0, 0⟩,
       ⟨Option.none, Option.none, Option.none, Option.none⟩,
       ⟨Option.none, Option.none, Option.none⟩, Option.none⟩).1.mpr (by norm_num),
   by norm_num⟩

end PerfTool
